import Mathlib

/-!
Shallow embedding of the SecNet consent / proof / credential / storage /
anomaly-monitoring core, translated from the JavaScript sources:

* `src/models/ConsentRequest.js` — consent request schema, expiry virtual,
  pre-save hook, approve/deny/revoke document methods;
* the consent routes file — create / approve / deny / revoke / get handlers;
* `src/services/zkp-service.js` — simplified proof scheme, Merkle tree,
  data-access proofs;
* the SSI service — verifiable credential / presentation verification;
* `src/models/User.js` — per-user credential set with revocation flag;
* the IPFS service — encrypt/decrypt wrappers over an authenticated cipher;
* `src/services/aiCoPilot.js` and the AIAnalytics model — anomaly score and
  risk level.

Times are embedded as `Int` milliseconds (JS `Date.now()` / `Date` compare);
SHA-256 is embedded as an explicit function parameter `hash : String → String`
(the theorems hold for every hash function, hence for SHA-256); randomness
(`crypto.randomBytes`) is embedded by passing the drawn bytes explicitly.
-/

namespace SecNet

/-! ## Consent requests (`src/models/ConsentRequest.js`) -/

/-- The closed status enum of `consentRequestSchema.status`. -/
inductive Status
  | pending
  | approved
  | denied
  | expired
  | revoked
deriving DecidableEq, Repr

/-- The fields of a stored consent request that the lifecycle logic reads or
writes.  `expiresAt` and `respondedAt` are epoch-millisecond times. -/
structure ConsentRequest where
  requesterAddress : String
  dataOwnerAddress : String
  dataType : String
  purpose : String
  status : Status
  expiresAt : Int
  respondedAt : Option Int
  responseReason : String
deriving DecidableEq, Repr

/-- `consentRequestSchema.virtual('isExpired')`: `new Date() > this.expiresAt`. -/
def ConsentRequest.isExpired (r : ConsentRequest) (now : Int) : Bool :=
  decide (now > r.expiresAt)

/-- The `pre('save')` hook: if the request is expired and still `pending`,
force the status to `expired`; the document is then persisted.  Every
`save()` in the embedding goes through this function. -/
def saveRequest (r : ConsentRequest) (now : Int) : ConsentRequest :=
  if r.isExpired now ∧ r.status = .pending then { r with status := .expired } else r

/-- `consentRequestSchema.methods.approve`: set status/respondedAt/reason,
then `save()` (which runs the pre-save hook). -/
def ConsentRequest.approve (r : ConsentRequest) (reason : String) (now : Int) : ConsentRequest :=
  saveRequest { r with status := .approved, respondedAt := some now, responseReason := reason } now

/-- `consentRequestSchema.methods.deny`. -/
def ConsentRequest.deny (r : ConsentRequest) (reason : String) (now : Int) : ConsentRequest :=
  saveRequest { r with status := .denied, respondedAt := some now, responseReason := reason } now

/-- `consentRequestSchema.methods.revoke`. -/
def ConsentRequest.revoke (r : ConsentRequest) (reason : String) (now : Int) : ConsentRequest :=
  saveRequest { r with status := .revoked, respondedAt := some now, responseReason := reason } now

/-- Error responses of the consent route handlers. -/
inductive RouteError
  | forbidden      -- 403 "Only the data owner can …"
  | notPending     -- 400 "Request is not pending approval"
  | notApproved    -- 400 "Request is not approved"
  | accessDenied   -- 403 "Access denied" (get route)
  | missingFields  -- 400 "Missing required fields" (create route)
  | ownerNotFound  -- 404 "Data owner not found" (create route)
  | requesterNotFound -- 404 "Requester not found" (create route)
deriving DecidableEq, Repr

/-- `POST /:requestId/approve`: the handler acting on a found request.  The
result is the stored request after the call together with the error returned,
if any; on an error path no `save()` happens, so the stored request is the
input unchanged. -/
def approveRoute (r : ConsentRequest) (actor reason : String) (now : Int) :
    ConsentRequest × Option RouteError :=
  if r.dataOwnerAddress ≠ actor then (r, some .forbidden)
  else if r.status ≠ .pending then (r, some .notPending)
  else (r.approve reason now, none)

/-- `POST /:requestId/deny`. -/
def denyRoute (r : ConsentRequest) (actor reason : String) (now : Int) :
    ConsentRequest × Option RouteError :=
  if r.dataOwnerAddress ≠ actor then (r, some .forbidden)
  else if r.status ≠ .pending then (r, some .notPending)
  else (r.deny reason now, none)

/-- `POST /:requestId/revoke`. -/
def revokeRoute (r : ConsentRequest) (actor reason : String) (now : Int) :
    ConsentRequest × Option RouteError :=
  if r.dataOwnerAddress ≠ actor then (r, some .forbidden)
  else if r.status ≠ .approved then (r, some .notApproved)
  else (r.revoke reason now, none)

/-- `GET /:requestId`: returns the stored request as-is (no save, no status
rewrite) when the caller is the owner or the requester. -/
def getRoute (r : ConsentRequest) (actor : String) : Except RouteError ConsentRequest :=
  if r.dataOwnerAddress ≠ actor ∧ r.requesterAddress ≠ actor then .error .accessDenied
  else .ok r

/-- `POST /request`: create a consent request.  Field presence is embedded by
`Option`; `ownerExists`/`requesterExists` embed the two `User.findByAddress`
lookups.  On success the new document (status defaulted to `pending`) is
`save()`d, which runs the pre-save expiry hook. -/
def createRoute (requesterAddress : String)
    (dataOwnerAddress dataType purpose : Option String) (expiresAt : Option Int)
    (ownerExists requesterExists : Bool) (now : Int) :
    Except RouteError ConsentRequest :=
  match dataOwnerAddress, dataType, purpose, expiresAt with
  | some o, some dt, some p, some e =>
    if !ownerExists then .error .ownerNotFound
    else if !requesterExists then .error .requesterNotFound
    else .ok (saveRequest
      { requesterAddress := requesterAddress
        dataOwnerAddress := o
        dataType := dt
        purpose := p
        status := .pending
        expiresAt := e
        respondedAt := none
        responseReason := "" } now)
  | _, _, _, _ => .error .missingFields

/-- The transition graph named by the spec:
`pending → {approved, denied, expired}` and `approved → revoked`. -/
def AllowedTransition (s t : Status) : Prop :=
  (s = .pending ∧ (t = .approved ∨ t = .denied ∨ t = .expired)) ∨
  (s = .approved ∧ t = .revoked)

instance (s t : Status) : Decidable (AllowedTransition s t) := by
  unfold AllowedTransition
  infer_instance

/-! ## ZKP service (`src/services/zkp-service.js`)

`crypto.createHash('sha256')…digest('hex')` is embedded as an explicit
function parameter `hash : String → String`; `crypto.randomBytes(16)
.toString('hex')` is embedded by passing the 16 drawn bytes and rendering
them in hex with `bytesToHex`. -/

/-- One byte rendered as two lowercase hex characters, as
`Buffer.toString('hex')` does. -/
def byteToHex (b : Fin 256) : String :=
  String.mk [Nat.digitChar (b.val / 16), Nat.digitChar (b.val % 16)]

/-- `Buffer.toString('hex')` over a byte list. -/
def bytesToHex : List (Fin 256) → String
  | [] => ""
  | b :: bs => byteToHex b ++ bytesToHex bs

/-- A proof record as produced by `generateAgeProof` / `generateLocationProof`
/ `generateCredentialProof`: the fields `verifyProof` reads. -/
structure Proof where
  isValid : Bool
  timestamp : Int
  nonce : String
deriving DecidableEq, Repr

/-- The result record of `verifyProof` (the `proof` and `verificationData`
fields are echoed back unchanged). -/
structure VerifyResult where
  isValid : Bool
  proof : Proof
  verificationData : String
deriving DecidableEq, Repr

/-- `ZKPService.verifyProof(proof, verificationData)`.  The source computes
`expectedHash` from `verificationData` but never compares it to anything;
`isValid` is `proof.isValid && proof.timestamp > Date.now() - 24h &&
proof.nonce.length === 32`. -/
def verifyProof (hash : String → String) (proof : Proof) (verificationData : String)
    (now : Int) : VerifyResult :=
  let _expectedHash := hash verificationData
  { isValid := proof.isValid
      && decide (proof.timestamp > now - 24 * 60 * 60 * 1000)
      && (proof.nonce.length == 32)
    proof := proof
    verificationData := verificationData }

/-- A data-access proof record as produced by `generateDataAccessProof`. -/
structure DataAccessProof where
  accessHash : String
  userIdHash : String
  dataTypeHash : String
  accessLevelHash : String
  timestamp : Int
  nonce : String
deriving DecidableEq, Repr

/-- `ZKPService.generateDataAccessProof(userId, dataType, accessLevel)`:
`accessHash = sha256(userId + '-' + dataType + '-' + accessLevel)`, the three
inputs hashed individually, `timestamp = Date.now()`, and a fresh 16-byte
nonce in hex. -/
def generateDataAccessProof (hash : String → String)
    (userId dataType accessLevel : String) (now : Int) (randomBytes : List (Fin 256)) :
    DataAccessProof :=
  { accessHash := hash (userId ++ "-" ++ dataType ++ "-" ++ accessLevel)
    userIdHash := hash userId
    dataTypeHash := hash dataType
    accessLevelHash := hash accessLevel
    timestamp := now
    nonce := bytesToHex randomBytes }

/-- The result record of `verifyDataAccessProof` (`accessGranted` equals
`isValid`). -/
structure DataAccessResult where
  isValid : Bool
  accessGranted : Bool
deriving DecidableEq, Repr

/-- `ZKPService.verifyDataAccessProof(proof, userId, dataType, accessLevel)`:
recompute the access hash and require an exact match, a proof age below one
hour, and a 32-character nonce. -/
def verifyDataAccessProof (hash : String → String) (proof : DataAccessProof)
    (userId dataType accessLevel : String) (now : Int) : DataAccessResult :=
  let expectedHash := hash (userId ++ "-" ++ dataType ++ "-" ++ accessLevel)
  let v := (proof.accessHash == expectedHash)
      && decide (proof.timestamp > now - 60 * 60 * 1000)
      && (proof.nonce.length == 32)
  { isValid := v, accessGranted := v }

/-- One level of `buildMerkleTree`'s `for (let i = 0; i < leaves.length;
i += 2)` loop: hash adjacent pairs, a trailing odd leaf paired with itself. -/
def pairLevel (hash : String → String) : List String → List String
  | [] => []
  | [x] => [hash (x ++ x)]
  | x :: y :: rest => hash (x ++ y) :: pairLevel hash rest

theorem pairLevel_length (hash : String → String) :
    ∀ l : List String, (pairLevel hash l).length = (l.length + 1) / 2
  | [] => rfl
  | [_] => by simp [pairLevel]
  | _ :: _ :: rest => by
    simp only [pairLevel, List.length_cons, pairLevel_length hash rest]
    omega

/-- The recursive `buildMerkleTree` helper: reduce level by level until a
single node remains.  (The source recurses forever on an empty list; the
embedding returns `""` there, a case never reached from a nonempty input.) -/
def buildMerkleTree (hash : String → String) : List String → String
  | [] => ""
  | [x] => x
  | x :: y :: rest => buildMerkleTree hash (pairLevel hash (x :: y :: rest))
termination_by l => l.length
decreasing_by
  simp only [pairLevel_length, List.length_cons]
  omega

/-- The result record of `generateMerkleTree`. -/
structure MerkleResult where
  root : String
  leaves : List String
  treeHeight : Nat
deriving DecidableEq, Repr

/-- `ZKPService.generateMerkleTree(dataArray)`: hash every item into a leaf,
reduce pairwise bottom-up, and report `Math.ceil(Math.log2(n))` as the tree
height (embedded as `Nat.clog 2 n`, the ceiling base-2 logarithm).  Items are
embedded as their `JSON.stringify` serializations, so `hash` is applied to
the item string directly. -/
def generateMerkleTree (hash : String → String) (dataArray : List String) : MerkleResult :=
  let leaves := dataArray.map hash
  { root := buildMerkleTree hash leaves
    leaves := leaves
    treeHeight := Nat.clog 2 leaves.length }

/-! ## Security middleware `verifyDataAccess` -/

/-- The four exits of `SecurityMiddleware.verifyDataAccess`. -/
inductive AccessOutcome
  | missingFields  -- 400 "Data CID, user address, and data type required"
  | dataNotFound   -- 404 "Data not found on IPFS"
  | accessDenied   -- 403 "Access denied to this data"
  | granted        -- next() with req.dataAccess set
deriving DecidableEq, Repr

/-- `SecurityMiddleware.verifyDataAccess`: require `dataCID`, `userAddress`
and `dataType`; check IPFS existence (`dataExists`, an external lookup passed
as a function); generate a fresh data-access proof from
`(userAddress, dataType, 'read')` at time `tGenerate` with the drawn nonce
bytes; verify that same proof against the same inputs at time `tVerify`
(`Date.now()` is read again inside the verifier); 403 unless
`accessGranted`. -/
def verifyDataAccess (hash : String → String)
    (dataCID userAddress dataType : Option String)
    (dataExists : String → Bool) (tGenerate tVerify : Int)
    (randomBytes : List (Fin 256)) : AccessOutcome :=
  match dataCID, userAddress, dataType with
  | some cid, some ua, some dt =>
    if !dataExists cid then .dataNotFound
    else
      let accessProof := generateDataAccessProof hash ua dt "read" tGenerate randomBytes
      let accessVerification := verifyDataAccessProof hash accessProof ua dt "read" tVerify
      if !accessVerification.accessGranted then .accessDenied
      else .granted
  | _, _, _ => .missingFields

/-! ## SSI service (verifiable credentials and presentations)

`jwt.sign` / `jwt.verify` with the HS256 shared secret are embedded as a
signed envelope `Jwt` carrying its payload and the key it was signed with;
`jwt.verify(token, secret)` succeeds exactly when the keys agree.  The DID
registry contract behind `resolveDID` is external, so it enters as a function
parameter `resolve : String → Option DIDInfo` (`none` embeds both a zero
owner and a thrown contract error, the two paths on which `resolveDID`
returns `null`).  Times here are epoch seconds, as in the source. -/

/-- What `resolveDID` returns for a resolvable DID (`isActive` is the field
the verifiers consult; the source always sets it to `true`). -/
structure DIDInfo where
  isActive : Bool
deriving DecidableEq, Repr

/-- A signed JWT envelope: the decoded payload plus the signing key. -/
structure Jwt (α : Type) where
  payload : α
  signedWith : String
deriving DecidableEq, Repr

/-- `jwt.verify(token, secret)`: the decoded payload on a matching key,
`none` (a thrown `JsonWebTokenError`) otherwise. -/
def jwtVerify {α : Type} (secret : String) (token : Jwt α) : Option α :=
  if token.signedWith = secret then some token.payload else none

/-- The credential-JWT payload fields `verifyCredential` reads: issuer DID
(`iss`), subject DID (`sub`), expiry (`exp`, absent embeds a falsy value). -/
structure CredentialPayload where
  iss : String
  sub : String
  exp : Option Int
deriving DecidableEq, Repr

/-- The presentation-JWT payload fields `verifyPresentation` reads: holder
DID (`iss`), expiry (`exp`), challenge nonce (`nonce`), and the wrapped
credential JWTs (`vp.verifiableCredential`). -/
structure PresentationPayload where
  iss : String
  exp : Option Int
  nonce : String
  verifiableCredential : List (Jwt CredentialPayload)
deriving DecidableEq, Repr

/-- `SSIService.verifyCredential(credentialJWT)`, reduced to its `isValid`
outcome: signature check, then expiry (`decoded.exp && decoded.exp < now`),
then issuer-DID and subject-DID resolution (`!did || !did.isActive` fails). -/
def verifyCredential (resolve : String → Option DIDInfo) (secret : String)
    (now : Int) (token : Jwt CredentialPayload) : Bool :=
  match jwtVerify secret token with
  | none => false
  | some d =>
    (match d.exp with
     | some e => decide (¬ e < now)
     | none => true)
    && (match resolve d.iss with
        | some i => i.isActive
        | none => false)
    && (match resolve d.sub with
        | some i => i.isActive
        | none => false)

/-- `SSIService.verifyPresentation(presentationJWT, challenge)`, reduced to
its `isValid` outcome: signature check, expiry, `decoded.nonce === challenge`,
holder-DID resolution, then the conjunction of `verifyCredential` over every
wrapped credential.  No revocation data is consulted anywhere. -/
def verifyPresentation (resolve : String → Option DIDInfo) (secret : String)
    (now : Int) (token : Jwt PresentationPayload) (challenge : String) : Bool :=
  match jwtVerify secret token with
  | none => false
  | some d =>
    (match d.exp with
     | some e => decide (¬ e < now)
     | none => true)
    && (d.nonce == challenge)
    && (match resolve d.iss with
        | some i => i.isActive
        | none => false)
    && d.verifiableCredential.all (verifyCredential resolve secret now)

/-! ## User credential set (`src/models/User.js`) -/

/-- One entry of `userSchema.ssiCredentials`. -/
structure SSICredential where
  credType : String
  issuer : String
  credentialHash : String
  isRevoked : Bool
deriving DecidableEq, Repr

/-- The part of a `User` document the credential operations touch. -/
structure User where
  address : String
  ssiCredentials : List SSICredential
deriving DecidableEq, Repr

/-- `Array.prototype.find` + mutation: mark the first credential whose
`credentialHash` matches as revoked; `none` when no match exists. -/
def setRevokedFirst : List SSICredential → String → Option (List SSICredential)
  | [], _ => none
  | c :: cs, h =>
    if c.credentialHash = h then some ({ c with isRevoked := true } :: cs)
    else (setRevokedFirst cs h).map (c :: ·)

/-- `userSchema.methods.revokeCredential(credentialHash)`: set `isRevoked`
on the matching credential and save, or throw `'Credential not found'`. -/
def User.revokeCredential (u : User) (credentialHash : String) : Except String User :=
  match setRevokedFirst u.ssiCredentials credentialHash with
  | some creds => .ok { u with ssiCredentials := creds }
  | none => .error "Credential not found"

/-! ## IPFS service encryption (`encryptData` / `decryptData`)

The Node `crypto` cipher (`createCipher` / `createDecipher` with
`aes-256-gcm`) is an external primitive; it enters the embedding as three
function parameters — `enc alg key plaintext` (the hex ciphertext produced by
`cipher.update` + `cipher.final`), `tag alg key plaintext`
(`cipher.getAuthTag()`; `createCipher` derives the IV from the key, so both
are functions of algorithm, key and plaintext), and
`dec alg key ciphertext authTag` (`decipher.update` + `decipher.final`,
`none` embedding the authentication-failure throw).  Theorems about the
round trip assume exactly the authenticated-cipher contract these primitives
satisfy.  `JSON.stringify` / `JSON.parse` on the payload enter likewise as a
serializer pair. -/

/-- The record returned by `IPFSService.encryptData`. -/
structure EncryptedBlob where
  encrypted : String
  iv : String
  authTag : String
  algorithm : String
deriving DecidableEq, Repr

/-- `IPFSService.encryptData(data, encryptionKey)`: serialize, encrypt with
`aes-256-gcm`, return ciphertext, the (unused) random IV, the auth tag and
the algorithm name. -/
def encryptData {α : Type} (enc tag : String → String → String → String)
    (jsonStringify : α → String) (data : α) (encryptionKey : String)
    (iv : String) : EncryptedBlob :=
  let algorithm := "aes-256-gcm"
  let plaintext := jsonStringify data
  { encrypted := enc algorithm encryptionKey plaintext
    iv := iv
    authTag := tag algorithm encryptionKey plaintext
    algorithm := algorithm }

/-- Errors thrown out of `decryptData`. -/
inductive DecryptError
  | decryptionFailed  -- decipher.final threw (auth tag / key mismatch)
  | parseFailed       -- JSON.parse threw
deriving DecidableEq, Repr

/-- `IPFSService.decryptData(encryptedData, encryptionKey)`: decipher with
the algorithm recorded in the blob, check the auth tag, parse the JSON. -/
def decryptData {α : Type} (dec : String → String → String → String → Option String)
    (jsonParse : String → Option α) (blob : EncryptedBlob) (encryptionKey : String) :
    Except DecryptError α :=
  match dec blob.algorithm encryptionKey blob.encrypted blob.authTag with
  | none => .error .decryptionFailed
  | some plaintext =>
    match jsonParse plaintext with
    | some d => .ok d
    | none => .error .parseFailed

/-! ## Anomaly scoring (`src/services/aiCoPilot.js`, AIAnalytics model) -/

/-- The alert severity enum of the AIAnalytics schema. -/
inductive Severity
  | info
  | warning
  | error
  | critical
deriving DecidableEq, Repr

/-- The per-severity weight added by the `switch` in
`calculateAnomalyScore`. -/
def severityWeight : Severity → Nat
  | .critical => 30
  | .error => 20
  | .warning => 10
  | .info => 5

/-- The `accessPattern` fields `calculateAnomalyScore` reads. -/
structure AccessPattern where
  frequency : Nat
  dataVolume : ℚ
deriving DecidableEq, Repr

/-- `AICoPilot.calculateAnomalyScore(anomalies, userAnalytics)`: sum the
severity weights of the triggered alerts, add 15 when the access frequency
exceeds 10 and 20 when the data volume exceeds 2000, cap at 100. -/
def calculateAnomalyScore (anomalies : List Severity) (pattern : AccessPattern) : Nat :=
  let base := anomalies.foldl (fun s a => s + severityWeight a) 0
  let withFrequency := base + (if pattern.frequency > 10 then 15 else 0)
  let withVolume := withFrequency + (if pattern.dataVolume > 2000 then 20 else 0)
  min withVolume 100

/-- The risk-level enum of the AIAnalytics schema. -/
inductive RiskLevel
  | low
  | medium
  | high
  | critical
deriving DecidableEq, Repr

/-- The risk-level update in `aiAnalyticsSchema.methods.updateAnomalyScore`:
`score >= 90 → critical; >= 75 → high; >= 50 → medium; else low`. -/
def updateRiskLevel (score : Nat) : RiskLevel :=
  if score ≥ 90 then .critical
  else if score ≥ 75 then .high
  else if score ≥ 50 then .medium
  else .low

/-! ## Shared lemmas -/

theorem byteToHex_length (b : Fin 256) : (byteToHex b).length = 2 := rfl

theorem bytesToHex_length : ∀ l : List (Fin 256), (bytesToHex l).length = 2 * l.length
  | [] => rfl
  | b :: bs => by
    simp only [bytesToHex, String.length_append, byteToHex_length, bytesToHex_length bs,
      List.length_cons]
    omega

/-! ## Claim theorems -/

/-- C6: `verifyDataAccessProof(proof, userId, dataType, accessLevel)` returns
`accessGranted = true` if and only if the proof's stored `accessHash` equals
the hash of `"userId-dataType-accessLevel"`, the proof's timestamp is less
than one hour before the current time, and the nonce length is exactly 32. -/
theorem verifyDataAccessProof_grants_iff (hash : String → String) (proof : DataAccessProof)
    (userId dataType accessLevel : String) (now : Int) :
    (verifyDataAccessProof hash proof userId dataType accessLevel now).accessGranted = true ↔
      proof.accessHash = hash (userId ++ "-" ++ dataType ++ "-" ++ accessLevel) ∧
      proof.timestamp > now - 60 * 60 * 1000 ∧
      proof.nonce.length = 32 := by
  simp [verifyDataAccessProof, Bool.and_eq_true, decide_eq_true_eq, beq_iff_eq, and_assoc]

/-- C7: the result of `verifyProof` is independent of its `verificationData`
argument — the hash recomputed from `verificationData` is never compared to
anything; `isValid` is computed only from the proof's stored flag, its
timestamp being within 24 hours, and its nonce length being 32. -/
theorem verifyProof_ignores_verificationData (hash : String → String) (proof : Proof)
    (d₁ d₂ : String) (now : Int) :
    (verifyProof hash proof d₁ now).isValid = (verifyProof hash proof d₂ now).isValid ∧
    ((verifyProof hash proof d₁ now).isValid = true ↔
      proof.isValid = true ∧
      proof.timestamp > now - 24 * 60 * 60 * 1000 ∧
      proof.nonce.length = 32) := by
  constructor
  · rfl
  · simp [verifyProof, Bool.and_eq_true, decide_eq_true_eq, beq_iff_eq, and_assoc]

/-- C4: in `SecurityMiddleware.verifyDataAccess`, whenever `dataCID`,
`userAddress` and `dataType` are present and the data exists in storage, the
403 "Access denied to this data" branch is unreachable: the data-access
proof is freshly generated in the same call from the same
`(userAddress, dataType, 'read')` inputs, so verification always grants
access (the two `Date.now()` reads of one call are well under an hour
apart). -/
theorem verifyDataAccess_never_denies (hash : String → String)
    (cid userAddress dataType : String) (dataExists : String → Bool)
    (tGenerate tVerify : Int) (randomBytes : List (Fin 256))
    (hbytes : randomBytes.length = 16)
    (hexists : dataExists cid = true)
    (htime : tVerify - tGenerate < 60 * 60 * 1000) :
    verifyDataAccess hash (some cid) (some userAddress) (some dataType)
      dataExists tGenerate tVerify randomBytes = .granted := by
  simp only [verifyDataAccess, hexists, Bool.not_true, Bool.false_eq_true, if_false,
    generateDataAccessProof, verifyDataAccessProof]
  have hts : (decide (tGenerate > tVerify - 60 * 60 * 1000)) = true := by
    simp only [decide_eq_true_eq]
    omega
  have hnonce : ((bytesToHex randomBytes).length == 32) = true := by
    simp [bytesToHex_length, hbytes]
  simp [hts, hnonce]
  omega

/-- C8: `generateMerkleTree` hashes pairwise bottom-up, duplicating a
trailing odd leaf: a single-item list's root is that item's hash; the root
of `[a, b, c]` is `hash(hash(hash(a)+hash(b)) + hash(hash(c)+hash(c)))`;
and the reported tree height equals `⌈log₂ n⌉` for `n` items (stated both
as the real ceiling logarithm and by its characterizing property
`height ≤ m ↔ n ≤ 2 ^ m`). -/
theorem generateMerkleTree_spec (hash : String → String) (a b c : String)
    (l : List String) (_hl : l ≠ []) :
    (generateMerkleTree hash [a]).root = hash a ∧
    (generateMerkleTree hash [a, b, c]).root =
      hash (hash (hash a ++ hash b) ++ hash (hash c ++ hash c)) ∧
    (((generateMerkleTree hash l).treeHeight : ℤ) = ⌈Real.logb 2 (l.length : ℝ)⌉) ∧
    (∀ m : ℕ, (generateMerkleTree hash l).treeHeight ≤ m ↔ l.length ≤ 2 ^ m) := by
  refine ⟨?_, ?_, ?_, ?_⟩
  · simp [generateMerkleTree, buildMerkleTree]
  · simp [generateMerkleTree, buildMerkleTree, pairLevel]
  · have h₀ : (0 : ℝ) ≤ (l.length : ℝ) := by positivity
    have h₁ := Real.ceil_logb_natCast (b := 2) (r := (l.length : ℝ)) h₀
    rw [Int.clog_natCast] at h₁
    rw [generateMerkleTree]
    simp only [List.length_map]
    exact_mod_cast h₁.symm
  · intro m
    rw [generateMerkleTree]
    simp only [List.length_map]
    exact ⟨fun h => (Nat.le_pow_iff_clog_le (by norm_num)).mpr h,
      fun h => (Nat.le_pow_iff_clog_le (by norm_num)).mp h⟩

/-- Witness for C8 at a concrete three-item list. -/
theorem generateMerkleTree_spec_witness :
    (["x", "y", "z"] : List String) ≠ [] ∧
    ((generateMerkleTree (fun s => s) ["x", "y", "z"]).treeHeight : ℤ) =
      ⌈Real.logb 2 ((["x", "y", "z"] : List String).length : ℝ)⌉ :=
  ⟨by decide,
    (generateMerkleTree_spec (fun s => s) "x" "y" "z" ["x", "y", "z"] (by decide)).2.2.1⟩

/-- Witness for C4 at concrete inputs. -/
theorem verifyDataAccess_never_denies_witness :
    (List.replicate 16 (0 : Fin 256)).length = 16 ∧
    ((fun _ : String => true) "cid") = true ∧
    ((0 : Int) - 0 < 60 * 60 * 1000) ∧
    verifyDataAccess (fun s => s) (some "cid") (some "user") (some "medical")
      (fun _ => true) 0 0 (List.replicate 16 (0 : Fin 256)) = .granted :=
  ⟨by decide, rfl, by decide,
    verifyDataAccess_never_denies (fun s => s) "cid" "user" "medical"
      (fun _ => true) 0 0 (List.replicate 16 (0 : Fin 256)) (by decide) rfl (by decide)⟩

theorem foldl_add_severityWeight (l : List Severity) (n : Nat) :
    l.foldl (fun s a => s + severityWeight a) n = n + (l.map severityWeight).sum := by
  induction l generalizing n with
  | nil => simp
  | cons a t ih =>
    simp only [List.foldl_cons, List.map_cons, List.sum_cons, ih]
    omega

/-- C9: the anomaly score is the sum of per-alert severity weights
(critical = 30, error = 20, warning = 10, info = 5) plus a bonus of 15 when
the access frequency exceeds 10 and 20 when the data volume exceeds 2000,
capped at 100; it never exceeds 100, and it is monotone non-decreasing both
in the number of triggered alerts (sublist order) and in their severities
(pointwise weight order); the risk level is the step function of the score
(`< 50` low, `< 75` medium, `< 90` high, else critical). -/
theorem anomalyScore_spec (anomalies : List Severity) (pattern : AccessPattern) :
    calculateAnomalyScore anomalies pattern =
      min ((anomalies.map severityWeight).sum
        + (if pattern.frequency > 10 then 15 else 0)
        + (if pattern.dataVolume > 2000 then 20 else 0)) 100 ∧
    calculateAnomalyScore anomalies pattern ≤ 100 ∧
    (∀ l₂ : List Severity, List.Sublist anomalies l₂ →
      calculateAnomalyScore anomalies pattern ≤ calculateAnomalyScore l₂ pattern) ∧
    (∀ l₂ : List Severity,
      List.Forall₂ (fun s t => severityWeight s ≤ severityWeight t) anomalies l₂ →
      calculateAnomalyScore anomalies pattern ≤ calculateAnomalyScore l₂ pattern) ∧
    (∀ score : Nat, updateRiskLevel score =
      if score < 50 then RiskLevel.low
      else if score < 75 then RiskLevel.medium
      else if score < 90 then RiskLevel.high
      else RiskLevel.critical) := by
  have hform : ∀ l : List Severity, calculateAnomalyScore l pattern =
      min ((l.map severityWeight).sum
        + (if pattern.frequency > 10 then 15 else 0)
        + (if pattern.dataVolume > 2000 then 20 else 0)) 100 := by
    intro l
    simp [calculateAnomalyScore, foldl_add_severityWeight]
  refine ⟨hform anomalies, ?_, ?_, ?_, ?_⟩
  · rw [hform]
    exact Nat.min_le_right _ _
  · intro l₂ h
    have hsum : (anomalies.map severityWeight).sum ≤ (l₂.map severityWeight).sum :=
      List.Sublist.sum_le_sum (h.map severityWeight) (fun a _ => Nat.zero_le a)
    rw [hform, hform]
    exact min_le_min (by omega) le_rfl
  · intro l₂ h
    have hsum : (anomalies.map severityWeight).sum ≤ (l₂.map severityWeight).sum := by
      induction h with
      | nil => exact le_rfl
      | cons h₁ h₂ ih =>
        simp only [List.map_cons, List.sum_cons]
        omega
    rw [hform, hform]
    exact min_le_min (by omega) le_rfl
  · intro score
    unfold updateRiskLevel
    split_ifs <;> first | rfl | (exfalso; omega)

/-- Witness for C9: a warning plus an error alert, frequency 12 and volume
2500 (both bonuses firing), is still capped below 100. -/
theorem anomalyScore_spec_witness :
    calculateAnomalyScore [Severity.warning, Severity.error]
      { frequency := 12, dataVolume := 2500 } ≤ 100 ∧
    List.Sublist ([Severity.warning] : List Severity) [Severity.warning, Severity.error] ∧
    calculateAnomalyScore [Severity.warning] { frequency := 12, dataVolume := 2500 } ≤
      calculateAnomalyScore [Severity.warning, Severity.error]
        { frequency := 12, dataVolume := 2500 } :=
  ⟨(anomalyScore_spec [Severity.warning, Severity.error]
      { frequency := 12, dataVolume := 2500 }).2.1,
    by simp,
    (anomalyScore_spec [Severity.warning]
      { frequency := 12, dataVolume := 2500 }).2.2.1
      [Severity.warning, Severity.error] (by simp)⟩

/-- C1: consent-request statuses move only along
`pending → {approved, denied, expired}` and `approved → revoked`: approve and
deny succeed exactly when the actor is the data owner and the current status
is `pending`, revoke exactly when the actor is the data owner and the status
is `approved`; every success performs an allowed transition, every failure
leaves the stored request untouched, and when the actor is the owner a
failure is precisely the invalid-transition (not-pending / not-approved)
error. -/
theorem consent_transition_graph (r : ConsentRequest) (actor reason : String) (now : Int) :
    (((approveRoute r actor reason now).2 = none ↔
        r.dataOwnerAddress = actor ∧ r.status = .pending) ∧
      ((approveRoute r actor reason now).2 = none →
        (approveRoute r actor reason now).1.status = .approved ∧
        AllowedTransition r.status (approveRoute r actor reason now).1.status) ∧
      ((approveRoute r actor reason now).2 ≠ none → (approveRoute r actor reason now).1 = r) ∧
      (r.dataOwnerAddress = actor → r.status ≠ .pending →
        (approveRoute r actor reason now).2 = some .notPending)) ∧
    (((denyRoute r actor reason now).2 = none ↔
        r.dataOwnerAddress = actor ∧ r.status = .pending) ∧
      ((denyRoute r actor reason now).2 = none →
        (denyRoute r actor reason now).1.status = .denied ∧
        AllowedTransition r.status (denyRoute r actor reason now).1.status) ∧
      ((denyRoute r actor reason now).2 ≠ none → (denyRoute r actor reason now).1 = r) ∧
      (r.dataOwnerAddress = actor → r.status ≠ .pending →
        (denyRoute r actor reason now).2 = some .notPending)) ∧
    (((revokeRoute r actor reason now).2 = none ↔
        r.dataOwnerAddress = actor ∧ r.status = .approved) ∧
      ((revokeRoute r actor reason now).2 = none →
        (revokeRoute r actor reason now).1.status = .revoked ∧
        AllowedTransition r.status (revokeRoute r actor reason now).1.status) ∧
      ((revokeRoute r actor reason now).2 ≠ none → (revokeRoute r actor reason now).1 = r) ∧
      (r.dataOwnerAddress = actor → r.status ≠ .approved →
        (revokeRoute r actor reason now).2 = some .notApproved)) := by
  refine ⟨?_, ?_, ?_⟩
  · by_cases hA : r.dataOwnerAddress = actor
    · by_cases hS : r.status = .pending
      · simp [approveRoute, hA, hS, ConsentRequest.approve, saveRequest, AllowedTransition]
      · simp [approveRoute, hA, hS]
    · simp [approveRoute, hA]
  · by_cases hA : r.dataOwnerAddress = actor
    · by_cases hS : r.status = .pending
      · simp [denyRoute, hA, hS, ConsentRequest.deny, saveRequest, AllowedTransition]
      · simp [denyRoute, hA, hS]
    · simp [denyRoute, hA]
  · by_cases hA : r.dataOwnerAddress = actor
    · by_cases hS : r.status = .approved
      · simp [revokeRoute, hA, hS, ConsentRequest.revoke, saveRequest, AllowedTransition]
      · simp [revokeRoute, hA, hS]
    · simp [revokeRoute, hA]

/-- Witness for C1: on a concrete pending request the owner's approve
succeeds and ends in `approved`; a stranger's approve fails. -/
theorem consent_transition_graph_witness :
    (approveRoute
      { requesterAddress := "0xreq", dataOwnerAddress := "0xown", dataType := "medical",
        purpose := "study", status := .pending, expiresAt := 100, respondedAt := none,
        responseReason := "" } "0xown" "ok" 5).2 = none ∧
    (approveRoute
      { requesterAddress := "0xreq", dataOwnerAddress := "0xown", dataType := "medical",
        purpose := "study", status := .pending, expiresAt := 100, respondedAt := none,
        responseReason := "" } "0xown" "ok" 5).1.status = .approved :=
  ⟨(consent_transition_graph _ "0xown" "ok" 5).1.1.mpr ⟨rfl, rfl⟩,
    ((consent_transition_graph
      { requesterAddress := "0xreq", dataOwnerAddress := "0xown", dataType := "medical",
        purpose := "study", status := .pending, expiresAt := 100, respondedAt := none,
        responseReason := "" } "0xown" "ok" 5).1.2.1
      ((consent_transition_graph _ "0xown" "ok" 5).1.1.mpr ⟨rfl, rfl⟩)).1⟩

/-- A stored request whose `expiresAt` (time 0) has passed but whose stored
status is still `pending`: the sweep has not run and nothing saved it yet. -/
def expiredPendingRequest : ConsentRequest :=
  { requesterAddress := "0xreq", dataOwnerAddress := "0xown", dataType := "medical",
    purpose := "study", status := .pending, expiresAt := 0, respondedAt := none,
    responseReason := "" }

/-- C3 counterexample: at time 10 the request `expiredPendingRequest` is
expired, yet the GET route returns it to the owner still as `pending`, and
the owner's approve succeeds and lands in `approved` — the read did not
force `expired` first, and the approve was not blocked.  (The pre-save hook
runs only after `approve()` has already set the status to `approved`, so it
never fires.) -/
theorem expired_pending_read_and_approve :
    expiredPendingRequest.isExpired 10 = true ∧
    expiredPendingRequest.status = .pending ∧
    getRoute expiredPendingRequest "0xown" = .ok expiredPendingRequest ∧
    (approveRoute expiredPendingRequest "0xown" "" 10).2 = none ∧
    (approveRoute expiredPendingRequest "0xown" "" 10).1.status = .approved := by
  refine ⟨rfl, rfl, rfl, rfl, rfl⟩

/-- C3 amended: `expired` is entered only when a still-`pending` request is
*saved* after its `expiresAt` has passed (the pre-save hook); a plain read
returns the stored status unchanged, and approve/deny on an
expired-but-still-`pending` request succeed, because the route checks the
stored status and the methods set the new status before the hook runs. -/
theorem expiry_only_on_save (r : ConsentRequest) (actor reason : String) (now : Int) :
    ((saveRequest r now).status = .expired ↔
      (now > r.expiresAt ∧ r.status = .pending) ∨ r.status = .expired) ∧
    (r.dataOwnerAddress = actor ∨ r.requesterAddress = actor → getRoute r actor = .ok r) ∧
    (r.status = .pending → r.dataOwnerAddress = actor →
      (approveRoute r actor reason now).2 = none ∧
      (approveRoute r actor reason now).1.status = .approved ∧
      (denyRoute r actor reason now).2 = none ∧
      (denyRoute r actor reason now).1.status = .denied) := by
  refine ⟨?_, ?_, ?_⟩
  · unfold saveRequest ConsentRequest.isExpired
    split_ifs with h <;> simp_all [decide_eq_true_eq]
  · intro h
    rcases h with h | h <;> simp [getRoute, h]
  · intro hS hA
    simp [approveRoute, denyRoute, hA, hS, ConsentRequest.approve, ConsentRequest.deny,
      saveRequest]

/-- Witness for C3's amended statement at the concrete expired-but-pending
request: its owner's approve succeeds even though `expiresAt` has passed. -/
theorem expiry_only_on_save_witness :
    expiredPendingRequest.status = .pending ∧
    expiredPendingRequest.dataOwnerAddress = "0xown" ∧
    (approveRoute expiredPendingRequest "0xown" "" 10).2 = none ∧
    (approveRoute expiredPendingRequest "0xown" "" 10).1.status = .approved :=
  ⟨rfl, rfl,
    ((expiry_only_on_save expiredPendingRequest "0xown" "" 10).2.2 rfl rfl).1,
    ((expiry_only_on_save expiredPendingRequest "0xown" "" 10).2.2 rfl rfl).2.1⟩

/-- C5 counterexample: all required fields present, both parties exist, and
`expiresAt = 0` lies strictly in the past of `now = 10` — yet creation does
*not* fail with a validation error: it succeeds, and the pre-save hook lands
the new request in `expired` rather than `pending`. -/
theorem createRoute_past_expiry_succeeds :
    createRoute "0xreq" (some "0xown") (some "medical") (some "research") (some 0)
      true true 10 =
      .ok { requesterAddress := "0xreq", dataOwnerAddress := "0xown", dataType := "medical",
            purpose := "research", status := .expired, expiresAt := 0, respondedAt := none,
            responseReason := "" } := by
  rfl

/-- C5 amended: creation fails with the missing-fields validation error iff
one of `dataOwnerAddress`, `dataType`, `purpose`, `expiresAt` is absent;
`expiresAt` is never compared against the current time — when every field is
present and both parties exist, the request is created with status `pending`
when `expiresAt` has not yet passed and `expired` otherwise. -/
theorem createRoute_spec (ra : String) (o dt p : Option String) (e : Option Int)
    (ownerEx reqEx : Bool) (now : Int) :
    (createRoute ra o dt p e ownerEx reqEx now = .error .missingFields ↔
      o = none ∨ dt = none ∨ p = none ∨ e = none) ∧
    (∀ o₀ dt₀ p₀ e₀, o = some o₀ → dt = some dt₀ → p = some p₀ → e = some e₀ →
      ownerEx = true → reqEx = true →
      createRoute ra o dt p e ownerEx reqEx now =
        .ok { requesterAddress := ra, dataOwnerAddress := o₀, dataType := dt₀,
              purpose := p₀, status := if now > e₀ then .expired else .pending,
              expiresAt := e₀, respondedAt := none, responseReason := "" }) := by
  constructor
  · cases o <;> cases dt <;> cases p <;> cases e <;>
      cases ownerEx <;> cases reqEx <;> simp [createRoute]
  · intro o₀ dt₀ p₀ e₀ ho hdt hp he hox hrx
    subst ho hdt hp he hox hrx
    by_cases h : now > e₀ <;>
      simp [createRoute, saveRequest, ConsentRequest.isExpired, h]

/-- Witness for C5's amended statement: a future `expiresAt` yields a
`pending` request. -/
theorem createRoute_spec_witness :
    createRoute "0xreq" (some "0xown") (some "medical") (some "research") (some 100)
      true true 10 =
      .ok { requesterAddress := "0xreq", dataOwnerAddress := "0xown", dataType := "medical",
            purpose := "research", status := .pending, expiresAt := 100, respondedAt := none,
            responseReason := "" } := by
  have h := (createRoute_spec "0xreq" (some "0xown") (some "medical") (some "research")
    (some 100) true true 10).2 "0xown" "medical" "research" 100 rfl rfl rfl rfl rfl rfl
  simpa using h

/-- A DID registry in which every DID resolves and is active. -/
def resolveAllActive : String → Option DIDInfo := fun _ => some { isActive := true }

/-- A concrete credential JWT, signed with the server secret, expiring at
time 1000000. -/
def revokedCredJwt : Jwt CredentialPayload :=
  { payload := { iss := "did:ethr:0xissuer", sub := "did:ethr:0xsubject", exp := some 1000000 },
    signedWith := "server-jwt-secret" }

/-- A presentation wrapping `revokedCredJwt`, bound to challenge
`"challenge-1"`. -/
def revokedPresJwt : Jwt PresentationPayload :=
  { payload := { iss := "did:ethr:0xholder", exp := some 1000000, nonce := "challenge-1",
                 verifiableCredential := [revokedCredJwt] },
    signedWith := "server-jwt-secret" }

/-- The subject's user document holding the stored copy of that credential
(`credentialHash` is its content hash), initially unrevoked. -/
def credHolder : User :=
  { address := "0xsubject",
    ssiCredentials := [{ credType := "medical", issuer := "did:ethr:0xissuer",
                         credentialHash := "hash-of-cred-1", isRevoked := false }] }

/-- C2 counterexample: the credential has been revoked through the only
revocation mechanism in the code (`User.revokeCredential` sets `isRevoked`),
the presentation is not expired at time 500, and the supplied challenge
equals its nonce exactly — yet `verifyPresentation` returns valid, because
neither `verifyPresentation` nor `verifyCredential` consults any revocation
data. -/
theorem revoked_credential_still_verifies :
    credHolder.revokeCredential "hash-of-cred-1" =
      .ok { address := "0xsubject",
            ssiCredentials := [{ credType := "medical", issuer := "did:ethr:0xissuer",
                                 credentialHash := "hash-of-cred-1", isRevoked := true }] } ∧
    revokedPresJwt.payload.exp = some 1000000 ∧ (500 : Int) < 1000000 ∧
    revokedPresJwt.payload.nonce = "challenge-1" ∧
    verifyPresentation resolveAllActive "server-jwt-secret" 500 revokedPresJwt
      "challenge-1" = true := by
  refine ⟨rfl, rfl, by decide, rfl, rfl⟩

/-- C2 amended: the outcome of `verifyPresentation` is fully determined by
the signature, the presentation expiry, the challenge match, holder-DID
resolution, and each wrapped credential's own signature/expiry/DID checks —
no revocation flag enters anywhere, so a revoked credential that passes
those checks still verifies. -/
theorem verifyPresentation_characterization (resolve : String → Option DIDInfo)
    (secret : String) (now : Int) (token : Jwt PresentationPayload) (challenge : String) :
    verifyPresentation resolve secret now token challenge = true ↔
      token.signedWith = secret ∧
      (∀ e, token.payload.exp = some e → ¬ e < now) ∧
      token.payload.nonce = challenge ∧
      (∃ i, resolve token.payload.iss = some i ∧ i.isActive = true) ∧
      (∀ c ∈ token.payload.verifiableCredential,
        verifyCredential resolve secret now c = true) := by
  simp only [verifyPresentation, jwtVerify]
  by_cases hs : token.signedWith = secret
  · rw [if_pos hs]
    simp only [hs, true_and, Bool.and_eq_true, List.all_eq_true, beq_iff_eq]
    cases hexp : token.payload.exp <;>
      cases hres : resolve token.payload.iss <;>
        simp [hexp, hres, decide_eq_true_eq, and_assoc]
  · rw [if_neg hs]
    simp [hs]

/-! Idealized instances of the external `aes-256-gcm` primitives, used to
instantiate the round-trip theorem's cipher contract at a concrete point. -/

def encIdeal (_alg _key plaintext : String) : String := plaintext

def tagIdeal (_alg key _plaintext : String) : String := key

def decIdeal (_alg key _ciphertext authTag : String) : Option String :=
  if authTag = key then some _ciphertext else none

/-- C10: for every payload `P` and key `K`,
`decryptData(encryptData(P, K), K)` returns `P` unchanged, and decrypting
with any key other than `K` fails with the decryption error — given exactly
the authenticated-cipher contract of the external `aes-256-gcm` primitives
(decryption with the encrypting key inverts encryption; decryption under a
different key fails the authentication-tag check) and the
`JSON.parse ∘ JSON.stringify` inverse. -/
theorem encryptData_decryptData_roundtrip {α : Type}
    (enc tag : String → String → String → String)
    (dec : String → String → String → String → Option String)
    (jsonStringify : α → String) (jsonParse : String → Option α)
    (hdec : ∀ alg key pt, dec alg key (enc alg key pt) (tag alg key pt) = some pt)
    (hauth : ∀ alg key key2 pt, key2 ≠ key →
      dec alg key2 (enc alg key pt) (tag alg key pt) = none)
    (hjson : ∀ d, jsonParse (jsonStringify d) = some d)
    (data : α) (key key2 iv : String) (hk : key2 ≠ key) :
    decryptData dec jsonParse (encryptData enc tag jsonStringify data key iv) key =
      .ok data ∧
    decryptData dec jsonParse (encryptData enc tag jsonStringify data key iv) key2 =
      .error .decryptionFailed := by
  constructor
  · simp [decryptData, encryptData, hdec, hjson]
  · simp [decryptData, encryptData, hauth _ _ _ _ hk]

/-- Witness for C10: the contract hypotheses hold of the idealized cipher,
and the round trip comes out as the theorem states at a concrete payload. -/
theorem encryptData_decryptData_roundtrip_witness :
    ("K2" : String) ≠ "K" ∧
    decryptData decIdeal (fun s => some s)
      (encryptData encIdeal tagIdeal (fun s : String => s) "payload-1" "K" "1f2e") "K" =
      .ok "payload-1" ∧
    decryptData decIdeal (fun s => some s)
      (encryptData encIdeal tagIdeal (fun s : String => s) "payload-1" "K" "1f2e") "K2" =
      .error .decryptionFailed := by
  have h := encryptData_decryptData_roundtrip (α := String) encIdeal tagIdeal decIdeal
    (fun s => s) (fun s => some s)
    (by intro alg key pt; simp [decIdeal, encIdeal, tagIdeal])
    (by intro alg key key2 pt hne; simp [decIdeal, encIdeal, tagIdeal, hne.symm])
    (fun d => rfl) "payload-1" "K" "K2" "1f2e" (by decide)
  exact ⟨by decide, h.1, h.2⟩

end SecNet
